import Mathlib

/-!
Verification of the seedream-automation batch pipeline core:
the tracking store (src/db/tracking.py), the work-list resolver and
per-item execution loop (src/pipeline/runner.py), and the CLI exit
behaviour (src/run_pipeline.py), shallowly embedded in Lean.

The tracking store is a MongoDB collection with a unique index on
`api_player_id`; we model it as a list of records.  `update_one`
updates the first record matching the filter (under the unique index at
most one record matches); `update_many` updates all matching records;
an upsert with no match appends a freshly built document.  Timestamps
are abstracted as naturals; durations likewise.
-/

namespace Seedream

/-- Status constants from src/db/tracking.py. -/
inductive Status where
  | pending
  | processing
  | completed
  | failed
deriving DecidableEq, Repr

/-- One tracking document (fields of db/schemas.py `new_tracking_document`
plus `spaces_url` set by the tracking operations). -/
structure Record where
  api_player_id : Nat
  status : Status
  created_at : Nat
  updated_at : Nat
  retry_count : Nat
  error_log : List String
  output_path : Option String
  style : String
  mode : String
  generation_duration_seconds : Option Nat
  source_image_url : String
  spaces_url : Option String
deriving DecidableEq, Repr

/-- The tracking collection: a list of documents.  The unique index on
`api_player_id` is carried as a `Nodup` hypothesis where a claim needs it. -/
abbrev Store := List Record

/-- The filter `\x7b"api_player_id": pid\x7d` used by every per-record update. -/
def matchesId (pid : Nat) (r : Record) : Bool :=
  r.api_player_id == pid

/-- Mongo `update_one`: rewrite the first record matching `p` with `g`. -/
def updateFirst (p : Record → Bool) (g : Record → Record) : List Record → List Record
  | [] => []
  | r :: rs => if p r then g r :: rs else r :: updateFirst p g rs

/-- Look up the (first) record with the given id, as `find_one` would. -/
def findRecord (s : Store) (pid : Nat) : Option Record :=
  s.find? (matchesId pid)

/-- Number of records in the store carrying the given id. -/
def countId (s : Store) (pid : Nat) : Nat :=
  (s.filter (matchesId pid)).length

/-- `get_completed_player_ids`: ids of records with status completed. -/
def get_completed_player_ids (s : Store) : List Nat :=
  (s.filter (fun r => r.status = Status.completed)).map (fun r => r.api_player_id)

/-- `get_failed_player_ids`: ids of records with status failed. -/
def get_failed_player_ids (s : Store) : List Nat :=
  (s.filter (fun r => r.status = Status.failed)).map (fun r => r.api_player_id)

/-- The `$set` part of `create_pending_record` applied to an existing record. -/
def pendFn (url style mode : String) (now : Nat) (r : Record) : Record :=
  { r with
    status := Status.pending
    source_image_url := url
    style := style
    mode := mode
    updated_at := now }

/-- The document inserted by the upsert branch of `create_pending_record`:
filter equality field + `$set` fields + `$setOnInsert` fields. -/
def newRec (pid : Nat) (url style mode : String) (now : Nat) : Record :=
  { api_player_id := pid
    status := Status.pending
    source_image_url := url
    style := style
    mode := mode
    updated_at := now
    created_at := now
    retry_count := 0
    error_log := []
    output_path := none
    generation_duration_seconds := none
    spaces_url := none }

/-- `create_pending_record`: `update_one` with `upsert=True` on the id filter. -/
def create_pending_record (s : Store) (pid : Nat) (url style mode : String) (now : Nat) : Store :=
  if (s.find? (matchesId pid)).isSome then
    updateFirst (matchesId pid) (pendFn url style mode now) s
  else
    s ++ [newRec pid url style mode now]

/-- `mark_processing`: set status to processing and update the timestamp. -/
def mark_processing (s : Store) (pid : Nat) (now : Nat) : Store :=
  updateFirst (matchesId pid)
    (fun r => { r with status := Status.processing, updated_at := now }) s

/-- The field update of `mark_completed`; `spaces_url` is only written when
the optional argument is not None. -/
def completedFn (outp : String) (dur : Nat) (su : Option String) (now : Nat) (r : Record) : Record :=
  match su with
  | none =>
      { r with
        status := Status.completed
        output_path := some outp
        generation_duration_seconds := some dur
        updated_at := now }
  | some u =>
      { r with
        status := Status.completed
        output_path := some outp
        generation_duration_seconds := some dur
        updated_at := now
        spaces_url := some u }

/-- `mark_completed`: set status completed and record the result fields. -/
def mark_completed (s : Store) (pid : Nat) (outp : String) (dur : Nat)
    (su : Option String) (now : Nat) : Store :=
  updateFirst (matchesId pid) (completedFn outp dur su now) s

/-- The field update of `mark_failed`: `$set` status/updated_at,
`$inc` retry_count, `$push` onto error_log. -/
def failedFn (msg : String) (now : Nat) (r : Record) : Record :=
  { r with
    status := Status.failed
    updated_at := now
    retry_count := r.retry_count + 1
    error_log := r.error_log ++ [msg] }

/-- `mark_failed`. -/
def mark_failed (s : Store) (pid : Nat) (msg : String) (now : Nat) : Store :=
  updateFirst (matchesId pid) (failedFn msg now) s

/-- `get_failed_players`: failed records with retry_count below the threshold. -/
def get_failed_players (s : Store) (maxRetries : Nat) : List Record :=
  s.filter (fun r => r.status = Status.failed && r.retry_count < maxRetries)

/-- The sentinel message pushed by `reset_stuck_processing`. -/
def resetSentinel : String :=
  "Interrupted: found in processing state at pipeline startup"

/-- The per-record update of `reset_stuck_processing`'s `update_many`:
records in processing become failed with one retry consumed and the
sentinel appended; all other records are untouched. -/
def resetFn (now : Nat) (r : Record) : Record :=
  if r.status = Status.processing then
    { r with
      status := Status.failed
      updated_at := now
      retry_count := r.retry_count + 1
      error_log := r.error_log ++ [resetSentinel] }
  else r

/-- The store after `reset_stuck_processing`'s `update_many`. -/
def reset_stuck_update (s : Store) (now : Nat) : Store :=
  s.map (resetFn now)

/-- `result.modified_count` of the `update_many`: the number of records
that matched the processing filter (each such update modifies the record). -/
def reset_stuck_modified_count (s : Store) : Nat :=
  (s.filter (fun r => r.status = Status.processing)).length

/-- `reset_stuck_processing`: runs the `update_many`, logs the modified
count, and falls off the end of the function — the Python function has no
return statement, so its return value is None, modelled as the `none` in
the second component. -/
def reset_stuck_processing (s : Store) (now : Nat) : Store × Option Nat :=
  (reset_stuck_update s now, none)

/-! ## Work-list resolution and the per-item loop (src/pipeline/runner.py) -/

/-- A candidate item as returned by the source provider (db/source.py
projection: `api_player_id` and `image`; names are irrelevant to the core). -/
structure Player where
  api_player_id : Nat
  image : String
deriving DecidableEq, Repr

/-- Python `.strip()`: drop leading and trailing whitespace. -/
def pyStrip (s : String) : String :=
  ⟨((s.data.dropWhile Char.isWhitespace).reverse.dropWhile Char.isWhitespace).reverse⟩

/-- The blank test of runner.py line 129, Python `not s.strip()`: the
stripped string is empty exactly when every character is whitespace. -/
def isBlank (url : String) : Bool :=
  url.data.all (fun c => c.isWhitespace)

/-- In the retry scope each tracking record is turned into a player-like
item: `item["image"] = item.get("source_image_url", "")`. -/
def recordToPlayer (r : Record) : Player :=
  { api_player_id := r.api_player_id, image := r.source_image_url }

/-- `skip_ids = completed_ids | failed_ids` (membership in the union is
membership in the concatenation). -/
def skip_ids (s : Store) : List Nat :=
  get_completed_player_ids s ++ get_failed_player_ids s

/-- The default-scope work list before the missing-image filter:
candidates whose id is not in `skip_ids`, in source order. -/
def workListDefault (players : List Player) (s : Store) : List Player :=
  players.filter (fun p => !(skip_ids s).contains p.api_player_id)

/-- `skipped_completed`: candidates whose id is in `completed_ids`. -/
def skippedCompleted (players : List Player) (s : Store) : Nat :=
  (players.filter (fun p => (get_completed_player_ids s).contains p.api_player_id)).length

/-- `skipped_failed`: candidates whose id is in `failed_ids`. -/
def skippedFailed (players : List Player) (s : Store) : Nat :=
  (players.filter (fun p => (get_failed_player_ids s).contains p.api_player_id)).length

/-- The retry-scope work list: `get_failed_players` records viewed as items. -/
def workListRetry (s : Store) (maxRetries : Nat) : List Player :=
  (get_failed_players s maxRetries).map recordToPlayer

/-- Output of work-list resolution: the final work list plus the counters
that feed the summary. -/
structure Resolved where
  work_list : List Player
  total_fetched : Nat
  skipped_completed : Nat
  skipped_failed : Nat
  skipped_no_image : Nat
deriving Repr, DecidableEq

/-- Work-list resolution, runner.py lines 93-136: scope selection, the
completed/failed exclusion (default scope only), then removal of items
with a blank image URL. -/
def resolveWorkList (retryFailed : Bool) (players : List Player) (s : Store)
    (maxRetries : Nat) : Resolved :=
  let work0 :=
    if retryFailed then workListRetry s maxRetries else workListDefault players s
  let tf := if retryFailed then (workListRetry s maxRetries).length else players.length
  let sc := if retryFailed then 0 else skippedCompleted players s
  let sf := if retryFailed then 0 else skippedFailed players s
  { work_list := work0.filter (fun p => !isBlank p.image)
    total_fetched := tf
    skipped_completed := sc
    skipped_failed := sf
    skipped_no_image := (work0.filter (fun p => isBlank p.image)).length }

/-- Outcome of the external steps (download, generate, output check,
upload) for one item: either all succeed, yielding the result fields of
`mark_completed`, or some step raises, yielding the message passed to
`mark_failed`. -/
inductive ItemResult where
  | ok (output_path : String) (duration : Nat) (spaces_url : Option String)
  | err (msg : String)
deriving Repr, DecidableEq

/-- One iteration of the per-item loop (runner.py lines 178-217): upsert
pending, mark processing, then either mark completed or — on any
exception — mark failed.  Returns the new store and whether the item
succeeded. -/
def processItem (s : Store) (p : Player) (style mode : String)
    (res : ItemResult) (now : Nat) : Store × Bool :=
  let s1 := create_pending_record s p.api_player_id p.image style mode now
  let s2 := mark_processing s1 p.api_player_id now
  match res with
  | ItemResult.ok outp dur su => (mark_completed s2 p.api_player_id outp dur su now, true)
  | ItemResult.err m => (mark_failed s2 p.api_player_id m now, false)

/-- Result of the whole loop: the final store and the two counters. -/
structure LoopOut where
  store : Store
  succeeded : Nat
  failed : Nat
deriving Repr

/-- The per-item loop over the work list.  `eff i` is the outcome of the
external steps for the item at position `i`. -/
def runLoop (style mode : String) (eff : Nat → ItemResult) (now : Nat) :
    Store → List Player → Nat → LoopOut
  | s, [], _ => { store := s, succeeded := 0, failed := 0 }
  | s, p :: rest, i =>
    let step := processItem s p style mode (eff i) now
    let out := runLoop style mode eff now step.1 rest (i + 1)
    if step.2 then
      { store := out.store, succeeded := out.succeeded + 1, failed := out.failed }
    else
      { store := out.store, succeeded := out.succeeded, failed := out.failed + 1 }

/-- The summary dict returned by `run_pipeline`. -/
structure Summary where
  total_fetched : Nat
  skipped_completed : Nat
  skipped_failed : Nat
  skipped_no_image : Nat
  processed : Nat
  succeeded : Nat
  failed : Nat
deriving Repr, DecidableEq

/-- The core of `run_pipeline` after setup: crash recovery, work-list
resolution, the early return when the work list is empty, otherwise the
per-item loop; returns the summary and the final tracking store. -/
def runPipelineCore (retryFailed : Bool) (players : List Player) (s : Store)
    (maxRetries : Nat) (style mode : String) (eff : Nat → ItemResult)
    (now : Nat) : Summary × Store :=
  let s0 := reset_stuck_update s now
  let rv := resolveWorkList retryFailed players s0 maxRetries
  if rv.work_list.isEmpty then
    ({ total_fetched := rv.total_fetched
       skipped_completed := rv.skipped_completed
       skipped_failed := rv.skipped_failed
       skipped_no_image := rv.skipped_no_image
       processed := 0, succeeded := 0, failed := 0 }, s0)
  else
    let out := runLoop style mode eff now s0 rv.work_list 0
    ({ total_fetched := rv.total_fetched
       skipped_completed := rv.skipped_completed
       skipped_failed := rv.skipped_failed
       skipped_no_image := rv.skipped_no_image
       processed := out.succeeded + out.failed
       succeeded := out.succeeded
       failed := out.failed }, out.store)

/-! ## CLI entry point (src/run_pipeline.py) and run_pipeline setup -/

/-- `read_master_prompt`: the stripped file contents, or the empty string
when the file is missing. -/
def read_master_prompt (fileContents : Option String) : String :=
  pyStrip (fileContents.getD "")

/-- The setup phase of `run_pipeline` (lines 54-75): an empty prompt or an
unrecoverable session each cause an early `\x7b"error": ...\x7d` return.
Returns the error message, or `none` when setup passes. -/
def pipelineSetup (fileContents : Option String)
    (sessionValid loginOk sessionValidAfterLogin : Bool) : Option String :=
  if read_master_prompt fileContents = "" then some "Empty prompt"
  else if !sessionValid then
    if !loginOk then some "Login failed"
    else if !sessionValidAfterLogin then some "Session invalid after login"
    else none
  else none

/-- What `run_pipeline` returns to `main`: an error dict from a
setup-level failure, or the summary of a completed run. -/
inductive PipelineResult where
  | fatal (msg : String)
  | summary (s : Summary)
deriving Repr, DecidableEq

/-- `run_pipeline`'s return value as seen by `main`, with the batch phase
abstracted by the summary it would produce. -/
def run_pipeline_result (fileContents : Option String)
    (sessionValid loginOk sessionValidAfterLogin : Bool)
    (batch : Summary) : PipelineResult :=
  match pipelineSetup fileContents sessionValid loginOk sessionValidAfterLogin with
  | some m => PipelineResult.fatal m
  | none => PipelineResult.summary batch

/-- The `--filter` argument of the CLI: absent, present but invalid JSON,
or present and parsed. -/
inductive FilterArg where
  | absent
  | invalidJson
  | valid
deriving DecidableEq, Repr

/-- The exit code of `main` (src/run_pipeline.py): `sys.exit(1)` when the
JSON filter fails to parse; otherwise the summary (or error dict) is
printed and the process falls off the end of `main`, exiting 0 —
regardless of what `run_pipeline` returned. -/
def main_exit_code (filterArg : FilterArg) (pres : PipelineResult) : Nat :=
  match filterArg with
  | FilterArg.invalidJson => 1
  | _ =>
    match pres with
    | _ => 0

/-! ## Helper lemmas about updateFirst and record lookup -/

theorem length_updateFirst (p : Record → Bool) (g : Record → Record) (l : List Record) :
    (updateFirst p g l).length = l.length := by
  induction l with
  | nil => rfl
  | cons r rs ih =>
    by_cases h : p r
    · simp [updateFirst, h]
    · simp [updateFirst, h, ih]

theorem updateFirst_of_forall_neg (p : Record → Bool) (g : Record → Record) (l : List Record)
    (h : ∀ r ∈ l, ¬ p r = true) : updateFirst p g l = l := by
  induction l with
  | nil => rfl
  | cons r rs ih =>
    have hr := h r (List.mem_cons_self r rs)
    simp [updateFirst, hr, ih fun x hx => h x (List.mem_cons_of_mem r hx)]

theorem mem_updateFirst (p : Record → Bool) (g : Record → Record) (l : List Record) (x : Record)
    (hx : x ∈ updateFirst p g l) : x ∈ l ∨ ∃ r, r ∈ l ∧ p r = true ∧ x = g r := by
  induction l with
  | nil => simp [updateFirst] at hx
  | cons r rs ih =>
    by_cases h : p r
    · simp only [updateFirst, if_pos h, List.mem_cons] at hx
      rcases hx with h1 | h2
      · exact Or.inr ⟨r, List.mem_cons_self r rs, h, h1⟩
      · exact Or.inl (List.mem_cons_of_mem r h2)
    · simp only [updateFirst, if_neg h, List.mem_cons] at hx
      rcases hx with h1 | h2
      · exact Or.inl (h1 ▸ List.mem_cons_self r rs)
      · rcases ih h2 with h3 | ⟨r', hr', hpr', hx'⟩
        · exact Or.inl (List.mem_cons_of_mem r h3)
        · exact Or.inr ⟨r', List.mem_cons_of_mem r hr', hpr', hx'⟩

theorem find?_updateFirst_pos (p : Record → Bool) (g : Record → Record) (l : List Record)
    (hg : ∀ r, p r = true → p (g r) = true) :
    (updateFirst p g l).find? p = (l.find? p).map g := by
  induction l with
  | nil => rfl
  | cons r rs ih =>
    by_cases h : p r
    · simp [updateFirst, h, List.find?_cons_of_pos, hg r h]
    · simp [updateFirst, h, List.find?_cons_of_neg, ih]

theorem find?_updateFirst_other (q p : Record → Bool) (g : Record → Record) (l : List Record)
    (h1 : ∀ r, q r = true → p r = false) (h2 : ∀ r, q r = true → p (g r) = false) :
    (updateFirst q g l).find? p = l.find? p := by
  induction l with
  | nil => rfl
  | cons r rs ih =>
    by_cases h : q r
    · simp [updateFirst, h, List.find?_cons_of_neg, h1 r h, h2 r h]
    · by_cases hp : p r
      · simp [updateFirst, h, List.find?_cons_of_pos, hp]
      · simp [updateFirst, h, List.find?_cons_of_neg, hp, ih]

theorem find?_append_or (l₁ l₂ : List Record) (p : Record → Bool) :
    (l₁ ++ l₂).find? p = (l₁.find? p).or (l₂.find? p) :=
  List.find?_append

theorem find?_map_pres (f : Record → Record) (p : Record → Bool) (l : List Record)
    (hf : ∀ r, p (f r) = p r) :
    (l.map f).find? p = (l.find? p).map f := by
  induction l with
  | nil => rfl
  | cons r rs ih =>
    by_cases h : p r
    · simp [List.find?_cons_of_pos, h, hf r]
    · have : ¬ p (f r) = true := by simp [hf r, h]
      simp [List.find?_cons_of_neg, h, this, ih]

/-! ## Per-operation lookup lemmas -/

theorem pendFn_id (url style mode : String) (now : Nat) (r : Record) :
    (pendFn url style mode now r).api_player_id = r.api_player_id := rfl

theorem completedFn_id (outp : String) (dur : Nat) (su : Option String) (now : Nat) (r : Record) :
    (completedFn outp dur su now r).api_player_id = r.api_player_id := by
  cases su <;> rfl

theorem failedFn_id (msg : String) (now : Nat) (r : Record) :
    (failedFn msg now r).api_player_id = r.api_player_id := rfl

theorem resetFn_id (now : Nat) (r : Record) :
    (resetFn now r).api_player_id = r.api_player_id := by
  unfold resetFn
  by_cases h : r.status = Status.processing <;> simp [h]

theorem matchesId_of_idpres (pid : Nat) (g : Record → Record)
    (hg : ∀ r, (g r).api_player_id = r.api_player_id) (r : Record) :
    matchesId pid (g r) = matchesId pid r := by
  simp [matchesId, hg r]

theorem matchesId_false_of_ne (pid qid : Nat) (hne : pid ≠ qid) (r : Record)
    (h : matchesId qid r = true) : matchesId pid r = false := by
  simp [matchesId] at h ⊢
  omega

theorem findRecord_updateFirst_self (pid : Nat) (g : Record → Record) (l : List Record)
    (hg : ∀ r, (g r).api_player_id = r.api_player_id) :
    findRecord (updateFirst (matchesId pid) g l) pid = (findRecord l pid).map g := by
  unfold findRecord
  exact find?_updateFirst_pos (matchesId pid) g l fun r h => by
    rw [matchesId_of_idpres pid g hg r]; exact h

theorem findRecord_updateFirst_ne (pid qid : Nat) (g : Record → Record) (l : List Record)
    (hne : pid ≠ qid) (hg : ∀ r, (g r).api_player_id = r.api_player_id) :
    findRecord (updateFirst (matchesId qid) g l) pid = findRecord l pid := by
  unfold findRecord
  exact find?_updateFirst_other (matchesId qid) (matchesId pid) g l
    (fun r h => matchesId_false_of_ne pid qid hne r h)
    (fun r h => by
      rw [matchesId_of_idpres pid g hg r]
      exact matchesId_false_of_ne pid qid hne r h)

theorem findRecord_mark_processing_self (s : Store) (pid now : Nat) :
    findRecord (mark_processing s pid now) pid =
      (findRecord s pid).map (fun r => { r with status := Status.processing, updated_at := now }) :=
  findRecord_updateFirst_self pid _ s fun _ => rfl

theorem findRecord_mark_processing_ne (s : Store) (pid qid now : Nat) (hne : pid ≠ qid) :
    findRecord (mark_processing s qid now) pid = findRecord s pid :=
  findRecord_updateFirst_ne pid qid _ s hne fun _ => rfl

theorem findRecord_mark_completed_self (s : Store) (pid : Nat) (outp : String) (dur : Nat)
    (su : Option String) (now : Nat) :
    findRecord (mark_completed s pid outp dur su now) pid =
      (findRecord s pid).map (completedFn outp dur su now) :=
  findRecord_updateFirst_self pid _ s (completedFn_id outp dur su now)

theorem findRecord_mark_completed_ne (s : Store) (pid qid : Nat) (outp : String) (dur : Nat)
    (su : Option String) (now : Nat) (hne : pid ≠ qid) :
    findRecord (mark_completed s qid outp dur su now) pid = findRecord s pid :=
  findRecord_updateFirst_ne pid qid _ s hne (completedFn_id outp dur su now)

theorem findRecord_mark_failed_self (s : Store) (pid : Nat) (msg : String) (now : Nat) :
    findRecord (mark_failed s pid msg now) pid =
      (findRecord s pid).map (failedFn msg now) :=
  findRecord_updateFirst_self pid _ s (failedFn_id msg now)

theorem findRecord_mark_failed_ne (s : Store) (pid qid : Nat) (msg : String) (now : Nat)
    (hne : pid ≠ qid) :
    findRecord (mark_failed s qid msg now) pid = findRecord s pid :=
  findRecord_updateFirst_ne pid qid _ s hne (failedFn_id msg now)

theorem matchesId_newRec (pid : Nat) (url style mode : String) (now : Nat) :
    matchesId pid (newRec pid url style mode now) = true := by
  simp [matchesId, newRec]

theorem findRecord_create_pending_self (s : Store) (pid : Nat) (url style mode : String)
    (now : Nat) :
    findRecord (create_pending_record s pid url style mode now) pid =
      some (match findRecord s pid with
            | some r => pendFn url style mode now r
            | none => newRec pid url style mode now) := by
  unfold create_pending_record
  cases h : findRecord s pid with
  | some r =>
    have : (s.find? (matchesId pid)).isSome := by
      unfold findRecord at h
      simp [h]
    rw [if_pos this]
    rw [findRecord_updateFirst_self pid _ s (pendFn_id url style mode now), h]
    rfl
  | none =>
    have : ¬ (s.find? (matchesId pid)).isSome := by
      unfold findRecord at h
      simp [h]
    rw [if_neg this]
    unfold findRecord
    rw [find?_append_or]
    unfold findRecord at h
    rw [h]
    simp [List.find?, matchesId_newRec]

theorem findRecord_create_pending_ne (s : Store) (pid qid : Nat) (url style mode : String)
    (now : Nat) (hne : pid ≠ qid) :
    findRecord (create_pending_record s qid url style mode now) pid = findRecord s pid := by
  unfold create_pending_record
  by_cases h : (s.find? (matchesId qid)).isSome
  · rw [if_pos h]
    exact findRecord_updateFirst_ne pid qid _ s hne (pendFn_id url style mode now)
  · rw [if_neg h]
    unfold findRecord
    rw [find?_append_or]
    have : matchesId pid (newRec qid url style mode now) = false := by
      simp [matchesId, newRec]
      omega
    simp [List.find?, this]

theorem findRecord_reset (s : Store) (now pid : Nat) :
    findRecord (reset_stuck_update s now) pid = (findRecord s pid).map (resetFn now) := by
  unfold findRecord reset_stuck_update
  exact find?_map_pres (resetFn now) (matchesId pid) s fun r =>
    matchesId_of_idpres pid (resetFn now) (resetFn_id now) r

/-! ## Membership, uniqueness and counting lemmas -/

theorem map_nodup_inj {α β : Type} (f : α → β) (l : List α)
    (h : (l.map f).Nodup) (a b : α) (ha : a ∈ l) (hb : b ∈ l) (hfe : f a = f b) : a = b := by
  induction l with
  | nil => cases ha
  | cons c t ih =>
    rw [List.map_cons, List.nodup_cons] at h
    rcases List.mem_cons.mp ha with rfl | ha'
    · rcases List.mem_cons.mp hb with rfl | hb'
      · rfl
      · exact absurd (hfe ▸ List.mem_map_of_mem f hb') h.1
    · rcases List.mem_cons.mp hb with rfl | hb'
      · exact absurd (hfe ▸ List.mem_map_of_mem f ha') h.1
      · exact ih h.2 ha' hb'

theorem findRecord_of_mem_nodup (s : Store) (r : Record)
    (hnd : (s.map (fun x => x.api_player_id)).Nodup) (hr : r ∈ s) :
    findRecord s r.api_player_id = some r := by
  induction s with
  | nil => cases hr
  | cons a t ih =>
    rw [List.map_cons, List.nodup_cons] at hnd
    rcases List.mem_cons.mp hr with rfl | hr'
    · unfold findRecord
      rw [List.find?_cons_of_pos]
      simp [matchesId]
    · by_cases hid : a.api_player_id = r.api_player_id
      · exact absurd (hid ▸ List.mem_map_of_mem (fun x => x.api_player_id) hr') hnd.1
      · have hneg : ¬ matchesId r.api_player_id a = true := by
          simp [matchesId]
          exact hid
        unfold findRecord
        rw [List.find?_cons_of_neg t hneg]
        exact ih hnd.2 hr'

theorem findRecord_none_iff (s : Store) (pid : Nat) :
    findRecord s pid = none ↔ ∀ r ∈ s, r.api_player_id ≠ pid := by
  unfold findRecord
  rw [List.find?_eq_none]
  constructor
  · intro h r hr
    have := h r hr
    simp [matchesId] at this
    exact this
  · intro h r hr
    simp [matchesId]
    exact h r hr

theorem mem_of_findRecord (s : Store) (pid : Nat) (r : Record)
    (h : findRecord s pid = some r) : r ∈ s ∧ r.api_player_id = pid := by
  unfold findRecord at h
  refine ⟨List.mem_of_find?_eq_some h, ?_⟩
  have := List.find?_some h
  simpa [matchesId] using this

theorem countId_append (s : Store) (pid : Nat) (r : Record) (h : matchesId pid r = true) :
    countId (s ++ [r]) pid = countId s pid + 1 := by
  unfold countId
  rw [List.filter_append]
  simp [h]

theorem countId_updateFirst_pres (q : Record → Bool) (g : Record → Record) (s : Store)
    (pid : Nat) (hg : ∀ r, (g r).api_player_id = r.api_player_id) :
    countId (updateFirst q g s) pid = countId s pid := by
  unfold countId
  induction s with
  | nil => rfl
  | cons r rs ih =>
    by_cases h : q r
    · simp only [updateFirst, if_pos h, List.filter_cons,
        matchesId_of_idpres pid g hg r]
      by_cases hm : matchesId pid r <;> simp [hm]
    · simp only [updateFirst, if_neg h, List.filter_cons]
      by_cases hm : matchesId pid r <;> simp [hm, ih]

theorem countId_zero_iff (s : Store) (pid : Nat) :
    countId s pid = 0 ↔ findRecord s pid = none := by
  unfold countId
  rw [List.length_eq_zero, List.filter_eq_nil_iff, findRecord_none_iff]
  constructor
  · intro h r hr
    have := h r hr
    simp [matchesId] at this
    exact this
  · intro h r hr
    simp [matchesId]
    exact h r hr

theorem countId_pos_of_findRecord (s : Store) (pid : Nat) (r : Record)
    (h : findRecord s pid = some r) : 1 ≤ countId s pid := by
  by_contra hc
  have h0 : countId s pid = 0 := by omega
  rw [countId_zero_iff] at h0
  rw [h0] at h
  cases h

theorem countId_create_pending (s : Store) (pid : Nat) (url style mode : String) (now : Nat) :
    countId (create_pending_record s pid url style mode now) pid =
      (if findRecord s pid = none then countId s pid + 1 else countId s pid) := by
  unfold create_pending_record
  cases h : findRecord s pid with
  | some r =>
    have hs : (s.find? (matchesId pid)).isSome := by
      unfold findRecord at h
      simp [h]
    rw [if_pos hs]
    rw [countId_updateFirst_pres (matchesId pid) _ s pid (pendFn_id url style mode now)]
    simp
  | none =>
    have hs : ¬ (s.find? (matchesId pid)).isSome := by
      unfold findRecord at h
      simp [h]
    rw [if_neg hs]
    rw [countId_append s pid _ (matchesId_newRec pid url style mode now)]
    simp

/-! ## Filter partition arithmetic -/

theorem length_filter_split {α : Type} (p : α → Bool) (l : List α) :
    l.length = (l.filter p).length + (l.filter (fun a => !p a)).length := by
  induction l with
  | nil => rfl
  | cons a t ih =>
    by_cases h : p a <;> simp [List.filter_cons, h, ih] <;> omega

theorem length_filter_three {α : Type} (c f : α → Bool) (l : List α)
    (h : ∀ x ∈ l, ¬(c x = true ∧ f x = true)) :
    l.length = (l.filter c).length + (l.filter f).length +
      (l.filter (fun x => !(c x || f x))).length := by
  induction l with
  | nil => rfl
  | cons a t ih =>
    have ht := ih fun x hx => h x (List.mem_cons_of_mem a hx)
    have ha := h a (List.mem_cons_self a t)
    rw [List.filter_cons, List.filter_cons, List.filter_cons]
    cases hc : c a with
    | true =>
      have hf : f a = false := by
        cases hff : f a
        · rfl
        · exact absurd ⟨hc, hff⟩ ha
      simp only [hc, hf, if_true, Bool.true_or, Bool.not_true, Bool.false_eq_true,
        if_false, List.length_cons]
      omega
    | false =>
      cases hf : f a with
      | true =>
        simp only [hc, hf, if_true, Bool.false_or, Bool.not_true, Bool.false_eq_true,
          if_false, List.length_cons]
        omega
      | false =>
        simp only [hc, hf, Bool.false_or, Bool.not_false, if_true, Bool.false_eq_true,
          if_false, List.length_cons]
        omega

/-! ## Resolver membership lemmas -/

theorem mem_completed_ids (s : Store) (pid : Nat) :
    pid ∈ get_completed_player_ids s ↔
      ∃ r ∈ s, r.status = Status.completed ∧ r.api_player_id = pid := by
  unfold get_completed_player_ids
  simp only [List.mem_map, List.mem_filter, decide_eq_true_eq]
  constructor
  · rintro ⟨r, ⟨hr, hst⟩, hid⟩
    exact ⟨r, hr, hst, hid⟩
  · rintro ⟨r, hr, hst, hid⟩
    exact ⟨r, ⟨hr, hst⟩, hid⟩

theorem mem_failed_ids (s : Store) (pid : Nat) :
    pid ∈ get_failed_player_ids s ↔
      ∃ r ∈ s, r.status = Status.failed ∧ r.api_player_id = pid := by
  unfold get_failed_player_ids
  simp only [List.mem_map, List.mem_filter, decide_eq_true_eq]
  constructor
  · rintro ⟨r, ⟨hr, hst⟩, hid⟩
    exact ⟨r, hr, hst, hid⟩
  · rintro ⟨r, hr, hst, hid⟩
    exact ⟨r, ⟨hr, hst⟩, hid⟩

theorem completed_failed_disjoint (s : Store) (pid : Nat)
    (hnd : (s.map (fun x => x.api_player_id)).Nodup)
    (hc : pid ∈ get_completed_player_ids s) : pid ∉ get_failed_player_ids s := by
  intro hf
  rcases (mem_completed_ids s pid).mp hc with ⟨r, hr, hrst, hrid⟩
  rcases (mem_failed_ids s pid).mp hf with ⟨q, hq, hqst, hqid⟩
  have : r = q :=
    map_nodup_inj (fun x => x.api_player_id) s hnd r q hr hq
      (by show r.api_player_id = q.api_player_id; rw [hrid, hqid])
  rw [this, hqst] at hrst
  cases hrst

theorem ids_reset_stuck_update (s : Store) (now : Nat) :
    (reset_stuck_update s now).map (fun x => x.api_player_id) =
      s.map (fun x => x.api_player_id) := by
  unfold reset_stuck_update
  rw [List.map_map]
  apply List.map_congr_left
  intro r _
  exact resetFn_id now r

theorem mem_workListRetry (s : Store) (maxRetries : Nat) (q : Player) :
    q ∈ workListRetry s maxRetries ↔
      ∃ r ∈ s, r.status = Status.failed ∧ r.retry_count < maxRetries ∧
        q = recordToPlayer r := by
  unfold workListRetry get_failed_players
  simp only [List.mem_map, List.mem_filter, Bool.and_eq_true, decide_eq_true_eq]
  constructor
  · rintro ⟨r, ⟨hr, hst, hlt⟩, hq⟩
    exact ⟨r, hr, hst, hlt, hq.symm⟩
  · rintro ⟨r, hr, hst, hlt, hq⟩
    exact ⟨r, ⟨hr, hst, hlt⟩, hq.symm⟩

theorem bnot_true_iff (b : Bool) : ((!b) = true) ↔ b = false := by
  cases b <;> simp

theorem contains_true_iff (l : List Nat) (a : Nat) : l.contains a = true ↔ a ∈ l := by
  simp

theorem contains_false_iff (l : List Nat) (a : Nat) : l.contains a = false ↔ a ∉ l := by
  constructor
  · intro h ha
    have := (contains_true_iff l a).mpr ha
    rw [this] at h
    cases h
  · intro h
    cases hc : l.contains a
    · rfl
    · exact absurd ((contains_true_iff l a).mp hc) h

theorem mem_workListDefault (players : List Player) (s : Store) (p : Player) :
    p ∈ workListDefault players s ↔
      p ∈ players ∧
        (¬ ∃ r ∈ s, r.api_player_id = p.api_player_id ∧ r.status = Status.completed) ∧
        (¬ ∃ r ∈ s, r.api_player_id = p.api_player_id ∧ r.status = Status.failed) := by
  unfold workListDefault skip_ids
  rw [List.mem_filter]
  constructor
  · rintro ⟨hp, hnc⟩
    rw [bnot_true_iff] at hnc
    have hmem := (contains_false_iff _ _).mp hnc
    refine ⟨hp, ?_, ?_⟩
    · rintro ⟨r, hr, hid, hst⟩
      exact hmem (List.mem_append.mpr (Or.inl
        ((mem_completed_ids s p.api_player_id).mpr ⟨r, hr, hst, hid⟩)))
    · rintro ⟨r, hr, hid, hst⟩
      exact hmem (List.mem_append.mpr (Or.inr
        ((mem_failed_ids s p.api_player_id).mpr ⟨r, hr, hst, hid⟩)))
  · rintro ⟨hp, hnc, hnf⟩
    refine ⟨hp, ?_⟩
    rw [bnot_true_iff]
    apply (contains_false_iff _ _).mpr
    intro hmem
    rcases List.mem_append.mp hmem with hc | hf
    · rcases (mem_completed_ids s p.api_player_id).mp hc with ⟨r, hr, hst, hid⟩
      exact hnc ⟨r, hr, hid, hst⟩
    · rcases (mem_failed_ids s p.api_player_id).mp hf with ⟨r, hr, hst, hid⟩
      exact hnf ⟨r, hr, hid, hst⟩

/-! ## Per-item loop lemmas -/

theorem completedFn_status (outp : String) (dur : Nat) (su : Option String) (now : Nat)
    (r : Record) : (completedFn outp dur su now r).status = Status.completed := by
  cases su <;> rfl

theorem failedFn_status (msg : String) (now : Nat) (r : Record) :
    (failedFn msg now r).status = Status.failed := rfl

/-- A shorthand for the terminal status that the loop assigns to an item
given the outcome of its external steps. -/
def outcomeStatus : ItemResult → Status
  | ItemResult.ok _ _ _ => Status.completed
  | ItemResult.err _ => Status.failed

theorem findRecord_processItem_self (s : Store) (p : Player) (style mode : String)
    (res : ItemResult) (now : Nat) :
    ∃ r, findRecord (processItem s p style mode res now).1 p.api_player_id = some r ∧
      r.status = outcomeStatus res := by
  unfold processItem
  cases res with
  | ok outp dur su =>
    simp only
    rw [findRecord_mark_completed_self, findRecord_mark_processing_self,
        findRecord_create_pending_self]
    cases h : findRecord s p.api_player_id with
    | some r0 => exact ⟨_, rfl, completedFn_status outp dur su now _⟩
    | none => exact ⟨_, rfl, completedFn_status outp dur su now _⟩
  | err m =>
    simp only
    rw [findRecord_mark_failed_self, findRecord_mark_processing_self,
        findRecord_create_pending_self]
    cases h : findRecord s p.api_player_id with
    | some r0 => exact ⟨_, rfl, failedFn_status m now _⟩
    | none => exact ⟨_, rfl, failedFn_status m now _⟩

theorem findRecord_processItem_ne (s : Store) (p : Player) (style mode : String)
    (res : ItemResult) (now pid : Nat) (hne : pid ≠ p.api_player_id) :
    findRecord (processItem s p style mode res now).1 pid = findRecord s pid := by
  unfold processItem
  cases res with
  | ok outp dur su =>
    simp only
    rw [findRecord_mark_completed_ne _ _ _ _ _ _ _ hne,
        findRecord_mark_processing_ne _ _ _ _ hne,
        findRecord_create_pending_ne _ _ _ _ _ _ _ hne]
  | err m =>
    simp only
    rw [findRecord_mark_failed_ne _ _ _ _ _ hne,
        findRecord_mark_processing_ne _ _ _ _ hne,
        findRecord_create_pending_ne _ _ _ _ _ _ _ hne]

theorem runLoop_counts (style mode : String) (eff : Nat → ItemResult) (now : Nat)
    (items : List Player) : ∀ (s : Store) (i : Nat),
    (runLoop style mode eff now s items i).succeeded +
      (runLoop style mode eff now s items i).failed = items.length := by
  induction items with
  | nil =>
    intro s i
    rfl
  | cons p rest ih =>
    intro s i
    have hr := ih (processItem s p style mode (eff i) now).1 (i + 1)
    simp only [runLoop]
    split
    · simp only [List.length_cons]
      omega
    · simp only [List.length_cons]
      omega

theorem runLoop_preserves (style mode : String) (eff : Nat → ItemResult) (now : Nat)
    (items : List Player) : ∀ (s : Store) (i pid : Nat),
    pid ∉ items.map (fun q => q.api_player_id) →
    findRecord (runLoop style mode eff now s items i).store pid = findRecord s pid := by
  induction items with
  | nil =>
    intro s i pid _
    rfl
  | cons p rest ih =>
    intro s i pid h
    rw [List.map_cons, List.mem_cons] at h
    push_neg at h
    have hstep := findRecord_processItem_ne s p style mode (eff i) now pid h.1
    have htail := ih (processItem s p style mode (eff i) now).1 (i + 1) pid h.2
    simp only [runLoop]
    split
    · rw [htail, hstep]
    · rw [htail, hstep]

theorem runLoop_status (style mode : String) (eff : Nat → ItemResult) (now : Nat)
    (items : List Player) : ∀ (s : Store) (i : Nat),
    (items.map (fun q => q.api_player_id)).Nodup →
    ∀ (j : Nat) (hj : j < items.length),
    ∃ r, findRecord (runLoop style mode eff now s items i).store
           (items.get ⟨j, hj⟩).api_player_id = some r ∧
      r.status = outcomeStatus (eff (i + j)) := by
  induction items with
  | nil =>
    intro s i _ j hj
    cases hj
  | cons p rest ih =>
    intro s i hnd j hj
    rw [List.map_cons, List.nodup_cons] at hnd
    cases j with
    | zero =>
      rcases findRecord_processItem_self s p style mode (eff i) now with ⟨r, hr, hst⟩
      have hpres := runLoop_preserves style mode eff now rest
        (processItem s p style mode (eff i) now).1 (i + 1) p.api_player_id hnd.1
      refine ⟨r, ?_, ?_⟩
      · show findRecord (runLoop style mode eff now s (p :: rest) i).store
          p.api_player_id = some r
        simp only [runLoop]
        split
        · rw [hpres, hr]
        · rw [hpres, hr]
      · rw [Nat.add_zero]
        exact hst
    | succ j' =>
      have hj' : j' < rest.length := by
        simp only [List.length_cons] at hj
        omega
      rcases ih (processItem s p style mode (eff i) now).1 (i + 1) hnd.2 j' hj' with
        ⟨r, hr, hst⟩
      refine ⟨r, ?_, ?_⟩
      · show findRecord (runLoop style mode eff now s (p :: rest) i).store
          ((p :: rest).get ⟨j' + 1, hj⟩).api_player_id = some r
        simp only [runLoop, List.get]
        split
        · exact hr
        · exact hr
      · have harith : i + 1 + j' = i + (j' + 1) := by omega
        rw [harith] at hst
        exact hst

/-! ## Resolver arithmetic -/

theorem contains_append_or (l1 l2 : List Nat) (a : Nat) :
    (l1 ++ l2).contains a = (l1.contains a || l2.contains a) := by
  cases h1 : l1.contains a with
  | true =>
    have hm : a ∈ l1 ++ l2 :=
      List.mem_append.mpr (Or.inl ((contains_true_iff l1 a).mp h1))
    rw [(contains_true_iff _ a).mpr hm]
    rfl
  | false =>
    cases h2 : l2.contains a with
    | true =>
      have hm : a ∈ l1 ++ l2 :=
        List.mem_append.mpr (Or.inr ((contains_true_iff l2 a).mp h2))
      rw [(contains_true_iff _ a).mpr hm]
      rfl
    | false =>
      have hm : a ∉ l1 ++ l2 := by
        intro hmem
        rcases List.mem_append.mp hmem with h | h
        · rw [(contains_true_iff l1 a).mpr h] at h1
          cases h1
        · rw [(contains_true_iff l2 a).mpr h] at h2
          cases h2
      rw [(contains_false_iff _ a).mpr hm]
      rfl

theorem resolveWorkList_def_true (players : List Player) (s : Store) (maxRetries : Nat) :
    resolveWorkList true players s maxRetries =
      { work_list := (workListRetry s maxRetries).filter (fun p => !isBlank p.image)
        total_fetched := (workListRetry s maxRetries).length
        skipped_completed := 0
        skipped_failed := 0
        skipped_no_image :=
          ((workListRetry s maxRetries).filter (fun p => isBlank p.image)).length } := rfl

theorem resolveWorkList_def_false (players : List Player) (s : Store) (maxRetries : Nat) :
    resolveWorkList false players s maxRetries =
      { work_list := (workListDefault players s).filter (fun p => !isBlank p.image)
        total_fetched := players.length
        skipped_completed := skippedCompleted players s
        skipped_failed := skippedFailed players s
        skipped_no_image :=
          ((workListDefault players s).filter (fun p => isBlank p.image)).length } := rfl

theorem default_scope_partition (players : List Player) (s : Store)
    (hnd : (s.map (fun x => x.api_player_id)).Nodup) :
    players.length =
      skippedCompleted players s + skippedFailed players s +
        (workListDefault players s).length := by
  unfold skippedCompleted skippedFailed workListDefault
  have hdisj : ∀ x ∈ players,
      ¬((get_completed_player_ids s).contains x.api_player_id = true ∧
        (get_failed_player_ids s).contains x.api_player_id = true) := by
    rintro x _ ⟨hc, hf⟩
    exact completed_failed_disjoint s x.api_player_id hnd
      ((contains_true_iff _ _).mp hc) ((contains_true_iff _ _).mp hf)
  have h3 := length_filter_three
    (fun x => (get_completed_player_ids s).contains x.api_player_id)
    (fun x => (get_failed_player_ids s).contains x.api_player_id)
    players hdisj
  have hcongr : players.filter (fun p => !(skip_ids s).contains p.api_player_id) =
      players.filter (fun x => !((get_completed_player_ids s).contains x.api_player_id ||
        (get_failed_player_ids s).contains x.api_player_id)) := by
    apply List.filter_congr
    intro x _
    unfold skip_ids
    rw [contains_append_or]
  rw [hcongr]
  dsimp only at h3
  omega

/-! ## Error-log extension lemmas -/

theorem errorlog_ext_updateFirst (qid : Nat) (g : Record → Record)
    (hg : ∀ r, (g r).api_player_id = r.api_player_id)
    (hlog : ∀ r, ∃ t, (g r).error_log = r.error_log ++ t)
    (s : Store) (pid : Nat) (r : Record) (h : findRecord s pid = some r) :
    ∃ r2 t, findRecord (updateFirst (matchesId qid) g s) pid = some r2 ∧
      r2.error_log = r.error_log ++ t := by
  by_cases he : pid = qid
  · subst he
    rw [findRecord_updateFirst_self pid g s hg, h]
    rcases hlog r with ⟨t, ht⟩
    exact ⟨g r, t, rfl, ht⟩
  · rw [findRecord_updateFirst_ne pid qid g s he hg, h]
    exact ⟨r, [], rfl, (List.append_nil _).symm⟩

theorem errorlog_ext_create_pending (s : Store) (qid : Nat) (url style mode : String)
    (now pid : Nat) (r : Record) (h : findRecord s pid = some r) :
    ∃ r2 t, findRecord (create_pending_record s qid url style mode now) pid = some r2 ∧
      r2.error_log = r.error_log ++ t := by
  unfold create_pending_record
  by_cases hq : (s.find? (matchesId qid)).isSome
  · rw [if_pos hq]
    exact errorlog_ext_updateFirst qid _ (pendFn_id url style mode now)
      (fun x => ⟨[], (List.append_nil _).symm⟩) s pid r h
  · rw [if_neg hq]
    refine ⟨r, [], ?_, (List.append_nil _).symm⟩
    unfold findRecord at h ⊢
    rw [find?_append_or, h]
    rfl

theorem errorlog_ext_reset (s : Store) (now pid : Nat) (r : Record)
    (h : findRecord s pid = some r) :
    ∃ r2 t, findRecord (reset_stuck_update s now) pid = some r2 ∧
      r2.error_log = r.error_log ++ t := by
  by_cases hp : r.status = Status.processing
  · refine ⟨resetFn now r, [resetSentinel], ?_, ?_⟩
    · rw [findRecord_reset, h]
      rfl
    · unfold resetFn
      rw [if_pos hp]
  · refine ⟨resetFn now r, [], ?_, ?_⟩
    · rw [findRecord_reset, h]
      rfl
    · unfold resetFn
      rw [if_neg hp, List.append_nil]

/-! ## Origin of pending records -/

theorem pending_mem_updateFirst (q : Record → Bool) (g : Record → Record) (s : Store)
    (x : Record) (hgs : ∀ r, (g r).status ≠ Status.pending)
    (hx : x ∈ updateFirst q g s) (hp : x.status = Status.pending) : x ∈ s := by
  rcases mem_updateFirst q g s x hx with h | ⟨r, _, _, hxg⟩
  · exact h
  · exact absurd (hxg ▸ hp) (hgs r)

theorem pending_mem_reset (s : Store) (now : Nat) (x : Record)
    (hx : x ∈ reset_stuck_update s now) (hp : x.status = Status.pending) : x ∈ s := by
  unfold reset_stuck_update at hx
  rcases List.mem_map.mp hx with ⟨r, hr, hxr⟩
  subst hxr
  unfold resetFn at hp ⊢
  by_cases h : r.status = Status.processing
  · rw [if_pos h] at hp
    cases hp
  · rw [if_neg h]
    exact hr

/-! ## Iterated mark_failed -/

/-- A finite sequence of `mark_failed` calls on the same item. -/
def iterMarkFailed (pid now : Nat) (s : Store) (msgs : List String) : Store :=
  msgs.foldl (fun st m => mark_failed st pid m now) s

theorem iterMarkFailed_effect (pid now : Nat) (msgs : List String) :
    ∀ (s : Store) (r : Record), findRecord s pid = some r →
    ∃ r2, findRecord (iterMarkFailed pid now s msgs) pid = some r2 ∧
      r2.retry_count = r.retry_count + msgs.length ∧
      r2.error_log = r.error_log ++ msgs := by
  induction msgs with
  | nil =>
    intro s r h
    exact ⟨r, h, rfl, (List.append_nil _).symm⟩
  | cons m ms ih =>
    intro s r h
    have h1 : findRecord (mark_failed s pid m now) pid = some (failedFn m now r) := by
      rw [findRecord_mark_failed_self, h]
      rfl
    rcases ih (mark_failed s pid m now) (failedFn m now r) h1 with ⟨r2, h2, hrc, hlog⟩
    refine ⟨r2, h2, ?_, ?_⟩
    · unfold failedFn at hrc
      simp only [List.length_cons] at hrc ⊢
      omega
    · unfold failedFn at hlog
      simp only at hlog
      rw [hlog, List.append_assoc]
      rfl

/-! ## Concrete fixtures for witnesses and counterexamples -/

/-- A sample tracking record with the given id, status, retry count and log. -/
def sampleRec (pid : Nat) (st : Status) (rc : Nat) (log : List String) : Record :=
  { api_player_id := pid
    status := st
    created_at := 0
    updated_at := 0
    retry_count := rc
    error_log := log
    output_path := none
    style := "Photo"
    mode := "General"
    generation_duration_seconds := none
    source_image_url := "http://img/a.png"
    spaces_url := none }

/-! ## Claim C10 -/

/-- C10: calling mark_processing, mark_completed or mark_failed with an
item id for which no tracking record exists leaves the store completely
unchanged — `update_one` without upsert matches nothing, mutates nothing
and raises nothing. -/
theorem C10_mark_ops_missing_id_noop (s : Store) (pid now : Nat) (outp : String)
    (dur : Nat) (su : Option String) (msg : String)
    (h : findRecord s pid = none) :
    mark_processing s pid now = s ∧
      mark_completed s pid outp dur su now = s ∧
      mark_failed s pid msg now = s := by
  have hforall : ∀ r ∈ s, ¬ matchesId pid r = true := by
    rw [findRecord_none_iff] at h
    intro r hr
    simp [matchesId]
    exact h r hr
  exact ⟨updateFirst_of_forall_neg _ _ s hforall,
         updateFirst_of_forall_neg _ _ s hforall,
         updateFirst_of_forall_neg _ _ s hforall⟩

/-- C10 witness: the three operations at an absent id on a concrete store. -/
theorem C10_witness :
    mark_processing [sampleRec 1 Status.pending 0 []] 2 5 = [sampleRec 1 Status.pending 0 []] ∧
      mark_completed [sampleRec 1 Status.pending 0 []] 2 "out.png" 3 none 5 =
        [sampleRec 1 Status.pending 0 []] ∧
      mark_failed [sampleRec 1 Status.pending 0 []] 2 "boom" 5 =
        [sampleRec 1 Status.pending 0 []] :=
  C10_mark_ops_missing_id_noop [sampleRec 1 Status.pending 0 []] 2 5 "out.png" 3 none "boom"
    (by decide)

/-! ## Claim C1 -/

/-- C1 counterexample: on a store with one processing record the affected
count is 1, but the function's return value is None — it does not return
the count of records affected (tracking.py's reset_stuck_processing only
logs `result.modified_count` and has no return statement). -/
theorem C1_counterexample :
    reset_stuck_modified_count [sampleRec 1 Status.processing 0 []] = 1 ∧
      (reset_stuck_processing [sampleRec 1 Status.processing 0 []] 0).2 ≠ some 1 := by
  exact ⟨rfl, by decide⟩

/-- C1 (amended): reset_stuck_processing transitions every record with
status processing to failed, incrementing its retry_count by exactly 1 and
appending the fixed sentinel to its error_log; every other record is left
untouched; it is a no-op when no record is in processing; but the affected
count is only logged — the function returns None, not the count. -/
theorem C1_reset_stuck_amended (s : Store) (now pid : Nat) (r : Record) :
    (reset_stuck_processing s now).2 = none ∧
    (findRecord s pid = some r →
      (r.status = Status.processing →
        findRecord (reset_stuck_processing s now).1 pid = some
          { r with status := Status.failed, updated_at := now,
                   retry_count := r.retry_count + 1,
                   error_log := r.error_log ++ [resetSentinel] }) ∧
      (r.status ≠ Status.processing →
        findRecord (reset_stuck_processing s now).1 pid = some r)) ∧
    ((∀ x ∈ s, x.status ≠ Status.processing) → (reset_stuck_processing s now).1 = s) := by
  refine ⟨rfl, ?_, ?_⟩
  · intro h
    constructor
    · intro hst
      show findRecord (reset_stuck_update s now) pid = _
      rw [findRecord_reset, h]
      show some (resetFn now r) = _
      unfold resetFn
      rw [if_pos hst]
    · intro hst
      show findRecord (reset_stuck_update s now) pid = _
      rw [findRecord_reset, h]
      show some (resetFn now r) = _
      unfold resetFn
      rw [if_neg hst]
  · intro h
    show reset_stuck_update s now = s
    unfold reset_stuck_update
    have hid : ∀ x ∈ s, resetFn now x = x := by
      intro x hx
      unfold resetFn
      rw [if_neg (h x hx)]
    rw [List.map_congr_left hid]
    exact List.map_id s

/-- C1 witness: the amended theorem at a concrete two-record store with one
processing record and one completed record. -/
theorem C1_witness :
    findRecord [sampleRec 1 Status.processing 2 ["e"], sampleRec 5 Status.completed 0 []] 1 =
      some (sampleRec 1 Status.processing 2 ["e"]) ∧
    (sampleRec 1 Status.processing 2 ["e"]).status = Status.processing ∧
    findRecord
        (reset_stuck_processing
          [sampleRec 1 Status.processing 2 ["e"], sampleRec 5 Status.completed 0 []] 9).1 1 =
      some { sampleRec 1 Status.processing 2 ["e"] with
              status := Status.failed, updated_at := 9,
              retry_count := (sampleRec 1 Status.processing 2 ["e"]).retry_count + 1,
              error_log := (sampleRec 1 Status.processing 2 ["e"]).error_log ++ [resetSentinel] } :=
  ⟨by decide, by decide,
    (((C1_reset_stuck_amended
        [sampleRec 1 Status.processing 2 ["e"], sampleRec 5 Status.completed 0 []] 9 1
        (sampleRec 1 Status.processing 2 ["e"])).2.1 (by decide)).1 (by decide))⟩

/-! ## Claim C6 -/

theorem completedFn_log (outp : String) (dur : Nat) (su : Option String) (now : Nat)
    (r : Record) : (completedFn outp dur su now r).error_log = r.error_log := by
  cases su <;> rfl

/-- C6: every mark_failed call on a present record increments its
retry_count by exactly 1 and appends exactly one message; after n calls on
a fresh record the error_log equals the n messages in order; and every
tracking-store operation only ever appends to an existing record's
error_log (never rewrites or shortens it). -/
theorem C6_monotonic_retry_accounting (s : Store) (pid qid now : Nat)
    (msg url style mode outp : String) (dur : Nat) (su : Option String)
    (msgs : List String) (r : Record)
    (h : findRecord s pid = some r) :
    (∃ r2, findRecord (mark_failed s pid msg now) pid = some r2 ∧
        r2.retry_count = r.retry_count + 1 ∧ r2.error_log = r.error_log ++ [msg]) ∧
    (r.retry_count = 0 → r.error_log = [] →
      ∃ r2, findRecord (iterMarkFailed pid now s msgs) pid = some r2 ∧
        r2.retry_count = msgs.length ∧ r2.error_log = msgs ∧
        r2.error_log.length = msgs.length) ∧
    (∃ r2 t, findRecord (create_pending_record s qid url style mode now) pid = some r2 ∧
        r2.error_log = r.error_log ++ t) ∧
    (∃ r2 t, findRecord (mark_processing s qid now) pid = some r2 ∧
        r2.error_log = r.error_log ++ t) ∧
    (∃ r2 t, findRecord (mark_completed s qid outp dur su now) pid = some r2 ∧
        r2.error_log = r.error_log ++ t) ∧
    (∃ r2 t, findRecord (mark_failed s qid msg now) pid = some r2 ∧
        r2.error_log = r.error_log ++ t) ∧
    (∃ r2 t, findRecord (reset_stuck_processing s now).1 pid = some r2 ∧
        r2.error_log = r.error_log ++ t) := by
  refine ⟨?_, ?_, ?_, ?_, ?_, ?_, ?_⟩
  · rw [findRecord_mark_failed_self, h]
    exact ⟨failedFn msg now r, rfl, rfl, rfl⟩
  · intro h0 hl
    rcases iterMarkFailed_effect pid now msgs s r h with ⟨r2, h2, hrc, hlog⟩
    rw [h0] at hrc
    rw [hl] at hlog
    rw [List.nil_append] at hlog
    refine ⟨r2, h2, by omega, hlog, by rw [hlog]⟩
  · exact errorlog_ext_create_pending s qid url style mode now pid r h
  · exact errorlog_ext_updateFirst qid
      (fun x => { x with status := Status.processing, updated_at := now }) (fun _ => rfl)
      (fun x => ⟨[], (List.append_nil _).symm⟩) s pid r h
  · exact errorlog_ext_updateFirst qid _ (completedFn_id outp dur su now)
      (fun x => ⟨[], by rw [completedFn_log, List.append_nil]⟩) s pid r h
  · exact errorlog_ext_updateFirst qid _ (failedFn_id msg now)
      (fun x => ⟨[msg], rfl⟩) s pid r h
  · exact errorlog_ext_reset s now pid r h

/-- C6 witness: the accounting facts at a concrete fresh record, with two
iterated failures. -/
theorem C6_witness :
    findRecord [sampleRec 4 Status.pending 0 []] 4 = some (sampleRec 4 Status.pending 0 []) ∧
    (∃ r2, findRecord (mark_failed [sampleRec 4 Status.pending 0 []] 4 "e1" 7) 4 = some r2 ∧
        r2.retry_count = (sampleRec 4 Status.pending 0 []).retry_count + 1 ∧
        r2.error_log = (sampleRec 4 Status.pending 0 []).error_log ++ ["e1"]) ∧
    (∃ r2, findRecord (iterMarkFailed 4 7 [sampleRec 4 Status.pending 0 []] ["e1", "e2"]) 4 =
          some r2 ∧
        r2.retry_count = (["e1", "e2"] : List String).length ∧
        r2.error_log = ["e1", "e2"] ∧
        r2.error_log.length = (["e1", "e2"] : List String).length) := by
  have h := C6_monotonic_retry_accounting [sampleRec 4 Status.pending 0 []] 4 4 7
    "e1" "u" "Photo" "General" "o" 3 none ["e1", "e2"] (sampleRec 4 Status.pending 0 [])
    (by decide)
  exact ⟨by decide, h.1, h.2.1 rfl rfl⟩

/-! ## Claim C3 -/

/-- C3: create_pending_record is an idempotent per-id upsert.  With no
record present it appends a fresh document with status pending,
retry_count 0 and empty error_log; with a record present it overwrites
only status, source_image_url, style, mode and updated_at, preserving
created_at, retry_count, error_log and the downstream fields; and two
calls with different source refs never produce two records — the final
record carries the latest source ref and the original created_at. -/
theorem C3_upsert_idempotent (s : Store) (pid : Nat) (url1 url2 style mode : String)
    (now1 now2 : Nat) (r : Record) :
    (findRecord s pid = none →
      create_pending_record s pid url1 style mode now1 =
        s ++ [newRec pid url1 style mode now1] ∧
      (newRec pid url1 style mode now1).status = Status.pending ∧
      (newRec pid url1 style mode now1).retry_count = 0 ∧
      (newRec pid url1 style mode now1).error_log = []) ∧
    (findRecord s pid = some r →
      (create_pending_record s pid url1 style mode now1).length = s.length ∧
      findRecord (create_pending_record s pid url1 style mode now1) pid =
        some (pendFn url1 style mode now1 r) ∧
      (pendFn url1 style mode now1 r).status = Status.pending ∧
      (pendFn url1 style mode now1 r).source_image_url = url1 ∧
      (pendFn url1 style mode now1 r).style = style ∧
      (pendFn url1 style mode now1 r).mode = mode ∧
      (pendFn url1 style mode now1 r).updated_at = now1 ∧
      (pendFn url1 style mode now1 r).created_at = r.created_at ∧
      (pendFn url1 style mode now1 r).retry_count = r.retry_count ∧
      (pendFn url1 style mode now1 r).error_log = r.error_log ∧
      (pendFn url1 style mode now1 r).output_path = r.output_path ∧
      (pendFn url1 style mode now1 r).generation_duration_seconds =
        r.generation_duration_seconds ∧
      (pendFn url1 style mode now1 r).spaces_url = r.spaces_url) ∧
    (countId s pid ≤ 1 →
      countId (create_pending_record (create_pending_record s pid url1 style mode now1)
          pid url2 style mode now2) pid = 1 ∧
      ∃ r2, findRecord (create_pending_record (create_pending_record s pid url1 style mode now1)
            pid url2 style mode now2) pid = some r2 ∧
        r2.source_image_url = url2 ∧
        r2.created_at = (match findRecord s pid with
                         | none => now1
                         | some r0 => r0.created_at)) := by
  refine ⟨?_, ?_, ?_⟩
  · intro h
    have hs : ¬ (s.find? (matchesId pid)).isSome := by
      unfold findRecord at h
      simp [h]
    unfold create_pending_record
    rw [if_neg hs]
    exact ⟨rfl, rfl, rfl, rfl⟩
  · intro h
    have hs : (s.find? (matchesId pid)).isSome := by
      unfold findRecord at h
      simp [h]
    refine ⟨?_, ?_, rfl, rfl, rfl, rfl, rfl, rfl, rfl, rfl, rfl, rfl, rfl⟩
    · unfold create_pending_record
      rw [if_pos hs]
      exact length_updateFirst _ _ s
    · rw [findRecord_create_pending_self, h]
  · intro hc
    have h1 := findRecord_create_pending_self s pid url1 style mode now1
    cases h0 : findRecord s pid with
    | none =>
      rw [h0] at h1
      have hz := (countId_zero_iff s pid).mpr h0
      have hcount1 : countId (create_pending_record s pid url1 style mode now1) pid = 1 := by
        rw [countId_create_pending, if_pos h0, hz]
      have hne2 : ¬ findRecord (create_pending_record s pid url1 style mode now1) pid = none := by
        rw [h1]
        intro hx
        cases hx
      refine ⟨?_, pendFn url2 style mode now2 (newRec pid url1 style mode now1), ?_, rfl, rfl⟩
      · rw [countId_create_pending, if_neg hne2]
        exact hcount1
      · rw [findRecord_create_pending_self, h1]
    | some r0 =>
      rw [h0] at h1
      have hpos := countId_pos_of_findRecord s pid r0 h0
      have hne1 : ¬ findRecord s pid = none := by
        rw [h0]
        intro hx
        cases hx
      have hcount1 : countId (create_pending_record s pid url1 style mode now1) pid = 1 := by
        rw [countId_create_pending, if_neg hne1]
        omega
      have hne2 : ¬ findRecord (create_pending_record s pid url1 style mode now1) pid = none := by
        rw [h1]
        intro hx
        cases hx
      refine ⟨?_, pendFn url2 style mode now2 (pendFn url1 style mode now1 r0), ?_, rfl, rfl⟩
      · rw [countId_create_pending, if_neg hne2]
        exact hcount1
      · rw [findRecord_create_pending_self, h1]

/-- C3 witness: two upserts with different source refs on an initially
empty store leave exactly one record, carrying the second ref and the
created_at of the first call. -/
theorem C3_witness :
    countId ([] : Store) 1 ≤ 1 ∧
    countId (create_pending_record (create_pending_record [] 1 "http://img/a.png" "Photo"
        "General" 3) 1 "http://img/b.png" "Photo" "General" 8) 1 = 1 ∧
    (∃ r2, findRecord (create_pending_record (create_pending_record [] 1 "http://img/a.png"
          "Photo" "General" 3) 1 "http://img/b.png" "Photo" "General" 8) 1 = some r2 ∧
      r2.source_image_url = "http://img/b.png" ∧
      r2.created_at = (match findRecord ([] : Store) 1 with
                       | none => 3
                       | some r0 => r0.created_at)) := by
  have h := (C3_upsert_idempotent [] 1 "http://img/a.png" "http://img/b.png" "Photo" "General"
    3 8 (sampleRec 1 Status.pending 0 [])).2.2 (by decide)
  exact ⟨by decide, h.1, h.2⟩

/-! ## Claim C2 -/

/-- Candidate 1 of the exclusion-correctness example. -/
def exP1 : Player := { api_player_id := 1, image := "http://img/1.png" }

/-- Candidate 2 of the exclusion-correctness example. -/
def exP2 : Player := { api_player_id := 2, image := "http://img/2.png" }

/-- Candidate 3 of the exclusion-correctness example. -/
def exP3 : Player := { api_player_id := 3, image := "http://img/3.png" }

/-- Candidate 4 of the exclusion-correctness example. -/
def exP4 : Player := { api_player_id := 4, image := "http://img/4.png" }

/-- The candidate list `{1,2,3,4}` of the example. -/
def exPlayers : List Player := [exP1, exP2, exP3, exP4]

/-- Store of the example: item 1 completed, item 2 failed with one retry. -/
def exStoreC2 : Store :=
  [sampleRec 1 Status.completed 0 [], sampleRec 2 Status.failed 1 ["err"]]

/-- C2: in the default scope the work list is exactly the candidates whose
id is in neither completed_ids nor failed_ids, in source order (a sublist
of the candidates); in the retry scope the work list is exactly the failed
records with retry_count below the threshold; on the example with
candidates 1-4, 1 completed and 2 failed (retry_count 1), the default
work list is exactly items 3 and 4 and the retry scope with max 3
includes item 2. -/
theorem C2_work_list_resolution :
    (∀ (players : List Player) (s : Store) (p : Player),
      p ∈ workListDefault players s ↔
        p ∈ players ∧
          (¬ ∃ r ∈ s, r.api_player_id = p.api_player_id ∧ r.status = Status.completed) ∧
          (¬ ∃ r ∈ s, r.api_player_id = p.api_player_id ∧ r.status = Status.failed)) ∧
    (∀ (players : List Player) (s : Store), (workListDefault players s).Sublist players) ∧
    (∀ (s : Store) (maxRetries : Nat) (q : Player),
      q ∈ workListRetry s maxRetries ↔
        ∃ r ∈ s, r.status = Status.failed ∧ r.retry_count < maxRetries ∧
          q = recordToPlayer r) ∧
    workListDefault exPlayers exStoreC2 = [exP3, exP4] ∧
    (workListRetry exStoreC2 3).map (fun q => q.api_player_id) = [2] := by
  refine ⟨mem_workListDefault, ?_, mem_workListRetry, by decide, by decide⟩
  intro players s
  exact List.filter_sublist players

/-- C2 witness: the concrete exclusion example extracted from the claim
theorem. -/
theorem C2_witness :
    workListDefault exPlayers exStoreC2 = [exP3, exP4] ∧
      (workListRetry exStoreC2 3).map (fun q => q.api_player_id) = [2] :=
  ⟨C2_work_list_resolution.2.2.2.1, C2_work_list_resolution.2.2.2.2⟩

/-! ## Claim C4 -/

/-- C4: any per-item failure is confined to its item.  For every work
list with distinct ids, every store and every assignment of external
outcomes, the loop reaches the end of the list (succeeded + failed equals
the list length, so the batch is never aborted), and every item ends in a
terminal state — completed when its external steps succeeded, failed (via
mark_failed) when they raised. -/
theorem C4_failures_do_not_abort (style mode : String) (eff : Nat → ItemResult)
    (now : Nat) (s : Store) (items : List Player) (i : Nat)
    (hnd : (items.map (fun q => q.api_player_id)).Nodup) :
    (runLoop style mode eff now s items i).succeeded +
        (runLoop style mode eff now s items i).failed = items.length ∧
    ∀ (j : Nat) (hj : j < items.length),
      ∃ r, findRecord (runLoop style mode eff now s items i).store
             (items.get ⟨j, hj⟩).api_player_id = some r ∧
        r.status = outcomeStatus (eff (i + j)) ∧
        (r.status = Status.completed ∨ r.status = Status.failed) := by
  constructor
  · exact runLoop_counts style mode eff now items s i
  · intro j hj
    rcases runLoop_status style mode eff now items s i hnd j hj with ⟨r, hr, hst⟩
    refine ⟨r, hr, hst, ?_⟩
    cases heff : eff (i + j) with
    | ok outp dur su =>
      rw [heff] at hst
      exact Or.inl hst
    | err m =>
      rw [heff] at hst
      exact Or.inr hst

/-- Work list of the batch-isolation example: three items. -/
def exItems3 : List Player :=
  [{ api_player_id := 10, image := "http://img/10.png" },
   { api_player_id := 11, image := "http://img/11.png" },
   { api_player_id := 12, image := "http://img/12.png" }]

/-- External outcomes of the example: item 2 (index 1) raises during
generation, items 1 and 3 succeed. -/
def exEff : Nat → ItemResult := fun i =>
  if i = 1 then ItemResult.err "TimeoutError: generation timed out"
  else ItemResult.ok "out.png" 10 (some "https://spaces/out.png")

/-- C4 witness: in the three-item run with item 2 failing, the loop still
processes all three items and each reaches a terminal state. -/
theorem C4_witness :
    (exItems3.map (fun q => q.api_player_id)).Nodup ∧
    ((runLoop "Photo" "General" exEff 0 [] exItems3 0).succeeded +
        (runLoop "Photo" "General" exEff 0 [] exItems3 0).failed = exItems3.length ∧
      ∀ (j : Nat) (hj : j < exItems3.length),
        ∃ r, findRecord (runLoop "Photo" "General" exEff 0 [] exItems3 0).store
               (exItems3.get ⟨j, hj⟩).api_player_id = some r ∧
          r.status = outcomeStatus (exEff (0 + j)) ∧
          (r.status = Status.completed ∨ r.status = Status.failed)) :=
  ⟨by decide, C4_failures_do_not_abort "Photo" "General" exEff 0 [] exItems3 0 (by decide)⟩

/-! ## Claim C5 -/

theorem resolve_arith (retryFailed : Bool) (players : List Player) (s : Store)
    (maxRetries : Nat) (hnd : (s.map (fun x => x.api_player_id)).Nodup) :
    (resolveWorkList retryFailed players s maxRetries).total_fetched =
      (resolveWorkList retryFailed players s maxRetries).work_list.length +
      (resolveWorkList retryFailed players s maxRetries).skipped_completed +
      (resolveWorkList retryFailed players s maxRetries).skipped_failed +
      (resolveWorkList retryFailed players s maxRetries).skipped_no_image := by
  cases retryFailed with
  | true =>
    rw [resolveWorkList_def_true]
    dsimp only
    have h := length_filter_split (fun q => isBlank q.image) (workListRetry s maxRetries)
    omega
  | false =>
    rw [resolveWorkList_def_false]
    dsimp only
    have h1 := default_scope_partition players s hnd
    have h2 := length_filter_split (fun q => isBlank q.image) (workListDefault players s)
    omega

/-- C5: in every run the summary satisfies processed = succeeded + failed,
and (using the store uniqueness guaranteed by the unique index)
total_fetched = |work_list| + skipped_completed + skipped_failed +
skipped_no_image, where work_list is the final list the loop processes. -/
theorem C5_summary_arithmetic (retryFailed : Bool) (players : List Player) (s : Store)
    (maxRetries : Nat) (style mode : String) (eff : Nat → ItemResult) (now : Nat)
    (hnd : (s.map (fun x => x.api_player_id)).Nodup) :
    (runPipelineCore retryFailed players s maxRetries style mode eff now).1.processed =
      (runPipelineCore retryFailed players s maxRetries style mode eff now).1.succeeded +
      (runPipelineCore retryFailed players s maxRetries style mode eff now).1.failed ∧
    (runPipelineCore retryFailed players s maxRetries style mode eff now).1.total_fetched =
      (resolveWorkList retryFailed players (reset_stuck_update s now)
          maxRetries).work_list.length +
      (runPipelineCore retryFailed players s maxRetries style mode eff now).1.skipped_completed +
      (runPipelineCore retryFailed players s maxRetries style mode eff now).1.skipped_failed +
      (runPipelineCore retryFailed players s maxRetries style mode eff now).1.skipped_no_image := by
  have hnd0 : ((reset_stuck_update s now).map (fun x => x.api_player_id)).Nodup := by
    rw [ids_reset_stuck_update]
    exact hnd
  have harith := resolve_arith retryFailed players (reset_stuck_update s now) maxRetries hnd0
  simp only [runPipelineCore]
  split
  · exact ⟨rfl, harith⟩
  · exact ⟨rfl, harith⟩

/-- C5 witness: summary arithmetic on a concrete default-scope run with
one completed, one failed, one blank-image and two processable candidates. -/
theorem C5_witness :
    (([sampleRec 1 Status.completed 0 [], sampleRec 2 Status.failed 1 ["err"]] : Store).map
        (fun x => x.api_player_id)).Nodup ∧
    ((runPipelineCore false [exP1, exP2, exP3, exP4,
          { api_player_id := 5, image := "  " }]
        [sampleRec 1 Status.completed 0 [], sampleRec 2 Status.failed 1 ["err"]]
        3 "Photo" "General" exEff 0).1.processed =
      (runPipelineCore false [exP1, exP2, exP3, exP4,
          { api_player_id := 5, image := "  " }]
        [sampleRec 1 Status.completed 0 [], sampleRec 2 Status.failed 1 ["err"]]
        3 "Photo" "General" exEff 0).1.succeeded +
      (runPipelineCore false [exP1, exP2, exP3, exP4,
          { api_player_id := 5, image := "  " }]
        [sampleRec 1 Status.completed 0 [], sampleRec 2 Status.failed 1 ["err"]]
        3 "Photo" "General" exEff 0).1.failed ∧
    (runPipelineCore false [exP1, exP2, exP3, exP4,
          { api_player_id := 5, image := "  " }]
        [sampleRec 1 Status.completed 0 [], sampleRec 2 Status.failed 1 ["err"]]
        3 "Photo" "General" exEff 0).1.total_fetched =
      (resolveWorkList false [exP1, exP2, exP3, exP4,
          { api_player_id := 5, image := "  " }]
        (reset_stuck_update
          [sampleRec 1 Status.completed 0 [], sampleRec 2 Status.failed 1 ["err"]] 0)
        3).work_list.length +
      (runPipelineCore false [exP1, exP2, exP3, exP4,
          { api_player_id := 5, image := "  " }]
        [sampleRec 1 Status.completed 0 [], sampleRec 2 Status.failed 1 ["err"]]
        3 "Photo" "General" exEff 0).1.skipped_completed +
      (runPipelineCore false [exP1, exP2, exP3, exP4,
          { api_player_id := 5, image := "  " }]
        [sampleRec 1 Status.completed 0 [], sampleRec 2 Status.failed 1 ["err"]]
        3 "Photo" "General" exEff 0).1.skipped_failed +
      (runPipelineCore false [exP1, exP2, exP3, exP4,
          { api_player_id := 5, image := "  " }]
        [sampleRec 1 Status.completed 0 [], sampleRec 2 Status.failed 1 ["err"]]
        3 "Photo" "General" exEff 0).1.skipped_no_image) :=
  ⟨by decide,
    C5_summary_arithmetic false [exP1, exP2, exP3, exP4,
        { api_player_id := 5, image := "  " }]
      [sampleRec 1 Status.completed 0 [], sampleRec 2 Status.failed 1 ["err"]]
      3 "Photo" "General" exEff 0 (by decide)⟩

/-! ## Claim C7 -/

/-- C7 counterexample: a blank-image candidate whose id is already
completed in the store is excluded by the completed/failed filter first
and counted in skipped_completed — skipped_no_image stays 0, so not every
blank candidate is counted in the skipped_no_image count. -/
theorem C7_counterexample :
    isBlank ({ api_player_id := 1, image := " " } : Player).image = true ∧
    ({ api_player_id := 1, image := " " } : Player) ∈
      [({ api_player_id := 1, image := " " } : Player)] ∧
    (resolveWorkList false [{ api_player_id := 1, image := " " }]
        [sampleRec 1 Status.completed 0 []] 3).skipped_no_image = 0 ∧
    (resolveWorkList false [{ api_player_id := 1, image := " " }]
        [sampleRec 1 Status.completed 0 []] 3).skipped_completed = 1 := by
  decide

theorem work_ids_no_pid_default (players : List Player) (s0 : Store)
    (maxRetries : Nat) (p : Player)
    (hblank : isBlank p.image = true)
    (hnd : (players.map (fun q => q.api_player_id)).Nodup)
    (hp : p ∈ players) :
    p.api_player_id ∉
      (resolveWorkList false players s0 maxRetries).work_list.map
        (fun q => q.api_player_id) := by
  intro hmem
  rcases List.mem_map.mp hmem with ⟨w, hw, hid⟩
  rw [resolveWorkList_def_false] at hw
  dsimp only at hw
  have hw2 := List.mem_filter.mp hw
  have hwp : w ∈ players := (List.mem_filter.mp hw2.1).1
  have hwpeq : w = p := map_nodup_inj (fun q => q.api_player_id) players hnd w p hwp hp hid
  have hb := hw2.2
  rw [hwpeq] at hb
  simp [hblank] at hb

theorem work_ids_no_pid (retryFailed : Bool) (players : List Player) (s0 : Store)
    (maxRetries : Nat) (p : Player)
    (hblank : isBlank p.image = true)
    (hnd : (players.map (fun q => q.api_player_id)).Nodup)
    (hp : p ∈ players)
    (hfresh0 : findRecord s0 p.api_player_id = none) :
    p.api_player_id ∉
      (resolveWorkList retryFailed players s0 maxRetries).work_list.map
        (fun q => q.api_player_id) := by
  cases retryFailed with
  | true =>
    intro hmem
    rcases List.mem_map.mp hmem with ⟨w, hw, hid⟩
    rw [resolveWorkList_def_true] at hw
    dsimp only at hw
    have hw2 := (List.mem_filter.mp hw).1
    rcases (mem_workListRetry s0 maxRetries w).mp hw2 with ⟨r, hr, _, _, hwr⟩
    have hne := (findRecord_none_iff s0 p.api_player_id).mp hfresh0 r hr
    apply hne
    have : w.api_player_id = r.api_player_id := by
      rw [hwr]
      rfl
    rw [← this]
    exact hid
  | false =>
    exact work_ids_no_pid_default players s0 maxRetries p hblank hnd hp

/-- C7 (amended): a candidate with a blank (empty or whitespace-only)
input reference never reaches the final work list in either scope, and is
never written to the tracking store — the loop never upserts it, so a
default-scope run leaves the record state for its id exactly as it stood
after startup crash recovery (an existing record is untouched, and if no
record existed none is created, in either scope); skipped_no_image counts
exactly the blank candidates that survived the completed/failed
exclusion, while a blank candidate already excluded as completed/failed
is counted in those counters instead. -/
theorem C7_missing_input_excluded (retryFailed : Bool) (players : List Player) (s : Store)
    (maxRetries : Nat) (style mode : String) (eff : Nat → ItemResult) (now : Nat)
    (p : Player)
    (hblank : isBlank p.image = true)
    (hnd : (players.map (fun q => q.api_player_id)).Nodup)
    (hp : p ∈ players) :
    p ∉ (resolveWorkList retryFailed players (reset_stuck_update s now) maxRetries).work_list ∧
    (resolveWorkList false players s maxRetries).skipped_no_image =
      (players.filter (fun q =>
        isBlank q.image && !(skip_ids s).contains q.api_player_id)).length ∧
    findRecord (runPipelineCore false players s maxRetries style mode eff now).2
      p.api_player_id = findRecord (reset_stuck_update s now) p.api_player_id ∧
    (findRecord s p.api_player_id = none →
      findRecord (runPipelineCore retryFailed players s maxRetries style mode eff now).2
        p.api_player_id = none) := by
  refine ⟨?_, ?_, ?_, ?_⟩
  · intro hmem
    cases retryFailed with
    | true =>
      rw [resolveWorkList_def_true] at hmem
      dsimp only at hmem
      have h2 := (List.mem_filter.mp hmem).2
      simp [hblank] at h2
    | false =>
      rw [resolveWorkList_def_false] at hmem
      dsimp only at hmem
      have h2 := (List.mem_filter.mp hmem).2
      simp [hblank] at h2
  · rw [resolveWorkList_def_false]
    dsimp only
    unfold workListDefault
    rw [List.filter_filter]
  · have hids := work_ids_no_pid_default players (reset_stuck_update s now) maxRetries p
      hblank hnd hp
    simp only [runPipelineCore]
    split
    · rfl
    · show findRecord (runLoop style mode eff now (reset_stuck_update s now)
          (resolveWorkList false players (reset_stuck_update s now)
            maxRetries).work_list 0).store p.api_player_id =
        findRecord (reset_stuck_update s now) p.api_player_id
      exact runLoop_preserves style mode eff now _ _ 0 _ hids
  · intro hfresh
    have hfresh0 : findRecord (reset_stuck_update s now) p.api_player_id = none := by
      rw [findRecord_reset, hfresh]
      rfl
    have hids := work_ids_no_pid retryFailed players (reset_stuck_update s now) maxRetries p
      hblank hnd hp hfresh0
    simp only [runPipelineCore]
    split
    · exact hfresh0
    · show findRecord (runLoop style mode eff now (reset_stuck_update s now)
          (resolveWorkList retryFailed players (reset_stuck_update s now)
            maxRetries).work_list 0).store p.api_player_id = none
      rw [runLoop_preserves style mode eff now _ _ 0 _ hids]
      exact hfresh0

/-- C7 witness: the amended exclusion facts at a concrete blank-image
candidate whose id already has a completed record — the candidate stays
out of the work list, is not counted in skipped_no_image, and the
existing record is left completely untouched by the run. -/
theorem C7_witness :
    isBlank ({ api_player_id := 1, image := "   " } : Player).image = true ∧
    (({ api_player_id := 1, image := "   " } : Player) ∉
      (resolveWorkList false [{ api_player_id := 1, image := "   " }, exP3]
        (reset_stuck_update [sampleRec 1 Status.completed 0 []] 0) 3).work_list ∧
    (resolveWorkList false [{ api_player_id := 1, image := "   " }, exP3]
        [sampleRec 1 Status.completed 0 []] 3).skipped_no_image =
      (([{ api_player_id := 1, image := "   " }, exP3] : List Player).filter (fun q =>
        isBlank q.image &&
          !(skip_ids [sampleRec 1 Status.completed 0 []]).contains q.api_player_id)).length ∧
    findRecord (runPipelineCore false [{ api_player_id := 1, image := "   " }, exP3]
        [sampleRec 1 Status.completed 0 []] 3 "Photo" "General" exEff 0).2 1 =
      findRecord (reset_stuck_update [sampleRec 1 Status.completed 0 []] 0) 1 ∧
    (findRecord [sampleRec 1 Status.completed 0 []] 1 = none →
      findRecord (runPipelineCore false [{ api_player_id := 1, image := "   " }, exP3]
          [sampleRec 1 Status.completed 0 []] 3 "Photo" "General" exEff 0).2 1 = none)) :=
  ⟨by decide,
    C7_missing_input_excluded false [{ api_player_id := 1, image := "   " }, exP3]
      [sampleRec 1 Status.completed 0 []] 3 "Photo" "General" exEff 0
      { api_player_id := 1, image := "   " }
      (by decide) (by decide) (by decide)⟩

/-! ## Claim C8 -/

/-- A failed record that carries stale downstream result fields. -/
def exFailedFull : Record :=
  { api_player_id := 1
    status := Status.failed
    created_at := 0
    updated_at := 4
    retry_count := 2
    error_log := ["e1", "e2"]
    output_path := some "stale.png"
    style := "Photo"
    mode := "General"
    generation_duration_seconds := some 12
    source_image_url := "http://img/1.png"
    spaces_url := some "https://spaces/1.png" }

/-- C8 counterexample: the retry transition (the upsert on a failed
record) moves it to pending but leaves output_path, duration and
result uri exactly as they were — it does not reset the downstream
result fields. -/
theorem C8_counterexample :
    (findRecord (create_pending_record [exFailedFull] 1 "http://img/1b.png" "Photo"
        "General" 9) 1).map
        (fun r => (r.status, r.output_path, r.generation_duration_seconds, r.spaces_url)) =
      some (Status.pending, some "stale.png", some 12, some "https://spaces/1.png") := by
  decide

theorem failed_record_untouched_default (players : List Player) (s : Store)
    (maxRetries : Nat) (style mode : String) (eff : Nat → ItemResult) (now : Nat) (r : Record)
    (hnd : (s.map (fun x => x.api_player_id)).Nodup)
    (hmem : r ∈ reset_stuck_update s now)
    (hst : r.status = Status.failed) :
    findRecord (runPipelineCore false players s maxRetries style mode eff now).2
      r.api_player_id = some r := by
  have hnd0 : ((reset_stuck_update s now).map (fun x => x.api_player_id)).Nodup := by
    rw [ids_reset_stuck_update]
    exact hnd
  have hfind : findRecord (reset_stuck_update s now) r.api_player_id = some r :=
    findRecord_of_mem_nodup _ r hnd0 hmem
  have hids : r.api_player_id ∉
      (resolveWorkList false players (reset_stuck_update s now) maxRetries).work_list.map
        (fun q => q.api_player_id) := by
    intro hmm
    rcases List.mem_map.mp hmm with ⟨w, hw, hid⟩
    rw [resolveWorkList_def_false] at hw
    dsimp only at hw
    have hw1 := (List.mem_filter.mp hw).1
    rcases (mem_workListDefault players (reset_stuck_update s now) w).mp hw1 with
      ⟨_, _, hnf⟩
    exact hnf ⟨r, hmem, hid.symm, hst⟩
  simp only [runPipelineCore]
  split
  · exact hfind
  · show findRecord (runLoop style mode eff now (reset_stuck_update s now)
        (resolveWorkList false players (reset_stuck_update s now)
          maxRetries).work_list 0).store r.api_player_id = some r
    rw [runLoop_preserves style mode eff now _ _ 0 _ hids]
    exact hfind

/-- C8 (amended): a record only ever acquires status pending through the
upsert (none of mark_processing, mark_completed, mark_failed or
reset_stuck_processing produces pending); in a default (non-retry) run a
failed record is never touched at all, so failed → pending indeed happens
only via the explicit retry scope; and the retry transition preserves
error_log and retry_count but leaves the downstream result fields
(output_path, duration, result uri) unchanged rather than resetting
them. -/
theorem C8_retry_transition (s : Store) (pid now : Nat) (outp : String) (dur : Nat)
    (su : Option String) (msg url style mode : String) (r x : Record)
    (players : List Player) (maxRetries : Nat) (eff : Nat → ItemResult) :
    (x ∈ mark_processing s pid now → x.status = Status.pending → x ∈ s) ∧
    (x ∈ mark_completed s pid outp dur su now → x.status = Status.pending → x ∈ s) ∧
    (x ∈ mark_failed s pid msg now → x.status = Status.pending → x ∈ s) ∧
    (x ∈ reset_stuck_update s now → x.status = Status.pending → x ∈ s) ∧
    (findRecord s pid = some r → r.status = Status.failed →
      findRecord (create_pending_record s pid url style mode now) pid =
        some (pendFn url style mode now r) ∧
      (pendFn url style mode now r).status = Status.pending ∧
      (pendFn url style mode now r).error_log = r.error_log ∧
      (pendFn url style mode now r).retry_count = r.retry_count ∧
      (pendFn url style mode now r).output_path = r.output_path ∧
      (pendFn url style mode now r).generation_duration_seconds =
        r.generation_duration_seconds ∧
      (pendFn url style mode now r).spaces_url = r.spaces_url) ∧
    ((s.map (fun q => q.api_player_id)).Nodup → r ∈ reset_stuck_update s now →
      r.status = Status.failed →
      findRecord (runPipelineCore false players s maxRetries style mode eff now).2
        r.api_player_id = some r) := by
  refine ⟨?_, ?_, ?_, ?_, ?_, ?_⟩
  · intro hx hp
    refine pending_mem_updateFirst _ _ s x (fun q hq => ?_) hx hp
    cases hq
  · intro hx hp
    refine pending_mem_updateFirst _ _ s x (fun q hq => ?_) hx hp
    rw [completedFn_status] at hq
    cases hq
  · intro hx hp
    refine pending_mem_updateFirst _ _ s x (fun q hq => ?_) hx hp
    cases hq
  · exact pending_mem_reset s now x
  · intro h _
    refine ⟨?_, rfl, rfl, rfl, rfl, rfl, rfl⟩
    rw [findRecord_create_pending_self, h]
  · intro hnd hmem hst
    exact failed_record_untouched_default players s maxRetries style mode eff now r
      hnd hmem hst

/-- C8 witness: the retry-transition facts at a concrete failed record and
a concrete default-scope run that leaves it untouched. -/
theorem C8_witness :
    findRecord [sampleRec 2 Status.failed 1 ["e"]] 2 =
      some (sampleRec 2 Status.failed 1 ["e"]) ∧
    (findRecord (create_pending_record [sampleRec 2 Status.failed 1 ["e"]] 2
          "http://img/b.png" "Photo" "General" 9) 2 =
        some (pendFn "http://img/b.png" "Photo" "General" 9
          (sampleRec 2 Status.failed 1 ["e"])) ∧
      (pendFn "http://img/b.png" "Photo" "General" 9
        (sampleRec 2 Status.failed 1 ["e"])).status = Status.pending ∧
      (pendFn "http://img/b.png" "Photo" "General" 9
        (sampleRec 2 Status.failed 1 ["e"])).error_log =
        (sampleRec 2 Status.failed 1 ["e"]).error_log ∧
      (pendFn "http://img/b.png" "Photo" "General" 9
        (sampleRec 2 Status.failed 1 ["e"])).retry_count =
        (sampleRec 2 Status.failed 1 ["e"]).retry_count ∧
      (pendFn "http://img/b.png" "Photo" "General" 9
        (sampleRec 2 Status.failed 1 ["e"])).output_path =
        (sampleRec 2 Status.failed 1 ["e"]).output_path ∧
      (pendFn "http://img/b.png" "Photo" "General" 9
        (sampleRec 2 Status.failed 1 ["e"])).generation_duration_seconds =
        (sampleRec 2 Status.failed 1 ["e"]).generation_duration_seconds ∧
      (pendFn "http://img/b.png" "Photo" "General" 9
        (sampleRec 2 Status.failed 1 ["e"])).spaces_url =
        (sampleRec 2 Status.failed 1 ["e"]).spaces_url) ∧
    findRecord (runPipelineCore false [exP3] [sampleRec 2 Status.failed 1 ["e"]] 3
        "Photo" "General" exEff 9).2
      (sampleRec 2 Status.failed 1 ["e"]).api_player_id =
      some (sampleRec 2 Status.failed 1 ["e"]) := by
  have h := C8_retry_transition [sampleRec 2 Status.failed 1 ["e"]] 2 9 "o" 3 none "m"
    "http://img/b.png" "Photo" "General" (sampleRec 2 Status.failed 1 ["e"])
    (sampleRec 2 Status.failed 1 ["e"]) [exP3] 3 exEff
  exact ⟨by decide, h.2.2.2.2.1 (by decide) (by decide),
    h.2.2.2.2.2 (by decide) (by decide) (by decide)⟩

/-! ## Claim C9 -/

/-- An empty summary used in the exit-code analysis. -/
def exSummary0 : Summary :=
  { total_fetched := 0, skipped_completed := 0, skipped_failed := 0,
    skipped_no_image := 0, processed := 0, succeeded := 0, failed := 0 }

/-- C9 counterexample: with a missing/empty prompt file run_pipeline
returns the setup-fatal "Empty prompt" error dict, yet main prints it as
the summary and exits 0 — main never inspects the result, so a
setup-level fatal error does not produce a non-zero exit. -/
theorem C9_counterexample :
    run_pipeline_result none true true true exSummary0 =
      PipelineResult.fatal "Empty prompt" ∧
    main_exit_code FilterArg.absent (run_pipeline_result none true true true exSummary0) = 0 := by
  exact ⟨by decide, rfl⟩

/-- C9 (amended): main exits non-zero (1) only when the JSON --filter
argument fails to parse; in every other case — including normally
completed runs with per-item failures and runs aborted by a setup-level
fatal error such as an empty prompt or a failed login — it prints the
result and exits 0. -/
theorem C9_exit_code (filterArg : FilterArg) (pres : PipelineResult) (msg : String)
    (sum : Summary) (h : filterArg ≠ FilterArg.invalidJson) :
    main_exit_code filterArg pres = 0 ∧
    main_exit_code FilterArg.invalidJson pres = 1 ∧
    main_exit_code filterArg (PipelineResult.fatal msg) = 0 ∧
    main_exit_code filterArg (PipelineResult.summary sum) = 0 := by
  cases filterArg with
  | absent => exact ⟨rfl, rfl, rfl, rfl⟩
  | invalidJson => exact absurd rfl h
  | valid => exact ⟨rfl, rfl, rfl, rfl⟩

/-- C9 witness: the exit codes at concrete arguments. -/
theorem C9_witness :
    main_exit_code FilterArg.absent (PipelineResult.summary exSummary0) = 0 ∧
    main_exit_code FilterArg.invalidJson (PipelineResult.summary exSummary0) = 1 ∧
    main_exit_code FilterArg.absent (PipelineResult.fatal "Empty prompt") = 0 ∧
    main_exit_code FilterArg.absent (PipelineResult.summary exSummary0) = 0 :=
  C9_exit_code FilterArg.absent (PipelineResult.summary exSummary0) "Empty prompt"
    exSummary0 (by decide)

end Seedream
